import Mathlib

/-
Verification of the localtuya connection-manager and IR-climate code
(custom_components/localtuya/common.py and climate.py), via a shallow
embedding: Python dicts become key-unique association lists, the
TuyaDevice instance becomes an explicit state record, and each method
becomes a state-transition function translated line by line from the
source.  Time is passed explicitly (the `now` arguments) where the
source reads the wall clock.
-/

namespace LocalTuya

/-- Dynamically typed scalar value of a Tuya data point (bool / int / string),
mirroring the value types that appear in device status dicts. -/
inductive TVal where
  | b (x : Bool)
  | n (x : Int)
  | s (x : String)
deriving DecidableEq, Repr

/-- Python `dict.get(k)`: first value stored under key `k`, if any. -/
def dget {α : Type} : List (String × α) → String → Option α
  | [], _ => none
  | (k', v) :: t, k => if k' = k then some v else dget t k

/-- Python `d[k] = v`: replace the value under `k` in place, or append the
pair when the key is absent (insertion order is preserved, as in CPython). -/
def dset {α : Type} : List (String × α) → String → α → List (String × α)
  | [], k, v => [(k, v)]
  | (k', v') :: t, k, v => if k' = k then (k, v) :: t else (k', v') :: dset t k v

/-- Python `d.update(u)`: set every pair of `u` into `d`, left to right. -/
def dupdate {α : Type} (d u : List (String × α)) : List (String × α) :=
  u.foldl (fun acc p => dset acc p.1 p.2) d

/-- A device status / pending-writes dict: DP id (string) to value. -/
abbrev Dict := List (String × TVal)

/-- The keys of a dict are pairwise distinct (every dict built by `dset` /
`dupdate` from `[]` satisfies this; Python dicts satisfy it by construction). -/
abbrev NodupKeys {α : Type} (d : List (String × α)) : Prop :=
  (d.map Prod.fst).Nodup

/-- Python dict equality `d1 == d2`: the two dicts agree on every key. -/
def pyEqD (a b : Dict) : Bool :=
  ((a.map Prod.fst) ++ (b.map Prod.fst)).all (fun k => decide (dget a k = dget b k))

/-- Truthiness of an optional string (`if self._node_id:`): present and
non-empty. -/
def truthyStr : Option String → Bool
  | none => false
  | some s => !(s = "")

/-- Model of the pytuya transport object held in `self._interface`; only the
`dispatched_dps` attribute (the DPs carried by the last decoded message) is
read by the code under verification. -/
structure Iface where
  dispatched_dps : Dict
deriving DecidableEq, Repr

/-- State of one `TuyaDevice` (common.py, class TuyaDevice): the mutable
fields touched by the verified methods, plus the per-device configuration
values they read (`sleep_time`, `node_id`, `fake_gateway`, `dev_id`).
The lazily cached `_hass_entry` handle is environment plumbing (a lookup
into hass.data) and is not part of the connection state. -/
structure DState where
  is_closing : Bool
  connect_task : Bool
  interface : Option Iface
  pending : Dict
  status : Dict
  last_update_time : Int
  sleep_time : Int
  node_id : Option String
  fake_gateway : Bool
  unsub_interval : Bool
  shutdown_delay : Bool
  dev_id : String
deriving DecidableEq, Repr

/-- Property `is_connecting`: `self._connect_task is not None`. -/
def is_connecting (s : DState) : Bool := s.connect_task

/-- Property `connected`: `self._interface is not None`. -/
def connected (s : DState) : Bool := s.interface.isSome

/-- Property `is_subdevice`: `self._node_id and not self._fake_gateway`. -/
def is_subdevice (s : DState) : Bool := truthyStr s.node_id && !s.fake_gateway

/-- Property `is_sleep` (common.py lines 223-230): `sleep_time > 0` and the
time elapsed since the last status update is still below `sleep_time`. -/
def is_sleep (s : DState) (now : Int) : Bool :=
  decide (0 < s.sleep_time) && decide (now - s.last_update_time < s.sleep_time)

/-- Method `async_connect` (common.py lines 249-260): the synchronous guard.
When the device is not closing, not already connecting, and not already
connected, a new connect task is created (second component `true`);
otherwise nothing happens. -/
def asyncConnect (s : DState) : DState × Bool :=
  if ¬ s.is_closing ∧ ¬ is_connecting s ∧ ¬ connected s then
    ({s with connect_task := true}, true)
  else
    (s, false)

/-- Method `set_values` (common.py lines 455-463): when an interface is
present and pending writes exist, the pending dict is sent as one payload
and cleared; otherwise nothing is sent.  (`check_connection` only awaits an
in-flight connect task and logs; it changes none of the modelled state.
A send failure is logged and the payload dropped either way.)  The second
component collects the payloads handed to `interface.set_dps`. -/
def setValuesStep (s : DState) : DState × List Dict :=
  if s.interface.isSome ∧ s.pending ≠ [] then
    ({s with pending := []}, [s.pending])
  else
    (s, [])

/-- Update phase of `set_dp` while connected (common.py line 468):
`self._pending_status.update({dp_index: state})`.  This runs before the
`await asyncio.sleep(0.001)` suspension point, so under cooperative
scheduling several of these updates can land before any flush. -/
def setDpUpd (dp : String) (v : TVal) (s : DState) : DState :=
  {s with pending := dupdate s.pending [(dp, v)]}

/-- Method `set_dp` (common.py lines 465-473) as one sequential step:
connected ⇒ merge into pending then flush; disconnected ⇒ queue only when
`is_sleep`, else drop.  DP ids are strings throughout (`dp_id: str`), so the
source's `str(dp_index)` on the sleep path is the identity here. -/
def setDp (s : DState) (now : Int) (v : TVal) (dp : String) : DState × List Dict :=
  if s.interface.isSome then
    setValuesStep (setDpUpd dp v s)
  else
    if is_sleep s now then
      ({s with pending := dupdate s.pending [(dp, v)]}, [])
    else
      (s, [])

/-- Method `set_dps` (common.py lines 475-482): like `set_dp` but merging a
whole dict of writes. -/
def setDps (s : DState) (now : Int) (states : Dict) : DState × List Dict :=
  if s.interface.isSome then
    setValuesStep {s with pending := dupdate s.pending states}
  else
    if is_sleep s now then
      ({s with pending := dupdate s.pending states}, [])
    else
      (s, [])

/-- Pending-writes flush at the tail of `_make_connection` (common.py lines
370-372): `if self._pending_status: await self.set_dps(self._pending_status);
self._pending_status = {}`. -/
def connectFlushTail (s : DState) (now : Int) : DState × List Dict :=
  if s.pending ≠ [] then
    let r := setDps s now s.pending
    ({r.1 with pending := []}, r.2)
  else
    (s, [])

/-- C1: a `connect()` call on a manager that is closing, already connecting,
or already connected starts no new connect task and changes no state, so at
most one Transport-establishing attempt is ever in flight. -/
theorem C1_async_connect_noop (s : DState)
    (h : s.is_closing = true ∨ is_connecting s = true ∨ connected s = true) :
    asyncConnect s = (s, false) := by
  unfold asyncConnect
  rcases h with h | h | h <;> simp [h]

theorem C1_async_connect_noop_witness :
    asyncConnect
      { is_closing := false, connect_task := true, interface := none,
        pending := [], status := [], last_update_time := 0, sleep_time := 0,
        node_id := none, fake_gateway := false, unsub_interval := false,
        shutdown_delay := false, dev_id := "dev1" } =
      ({ is_closing := false, connect_task := true, interface := none,
         pending := [], status := [], last_update_time := 0, sleep_time := 0,
         node_id := none, fake_gateway := false, unsub_interval := false,
         shutdown_delay := false, dev_id := "dev1" }, false) :=
  C1_async_connect_noop _ (Or.inr (Or.inl (by decide)))

/-- C8: two `set_dp` update phases for the same DP landing before the flush
phases (the interleaving the `asyncio.sleep(0.001)` suspension point allows)
produce exactly one flushed payload, carrying the second value, and leave
PendingWrites empty; the second flush finds nothing to send. -/
theorem C8_write_coalescing (s : DState) (iface : Iface) (dp : String) (v1 v2 : TVal)
    (hi : s.interface = some iface) (hp : s.pending = []) :
    (setValuesStep (setDpUpd dp v2 (setDpUpd dp v1 s))).2 = [[(dp, v2)]] ∧
    setValuesStep (setValuesStep (setDpUpd dp v2 (setDpUpd dp v1 s))).1 =
      ({s with pending := []}, []) ∧
    dget [(dp, v2)] dp = some v2 := by
  refine ⟨?_, ?_, ?_⟩
  · simp [setDpUpd, setValuesStep, hi, hp, dupdate, dset]
  · simp [setDpUpd, setValuesStep, hi, hp, dupdate, dset]
  · simp [dget]

/-- Concrete connected device with empty pending writes, witnessing C8. -/
def c8Dev : DState :=
  { is_closing := false, connect_task := false, interface := some ⟨[]⟩,
    pending := [], status := [], last_update_time := 0, sleep_time := 0,
    node_id := none, fake_gateway := false, unsub_interval := false,
    shutdown_delay := false, dev_id := "dev8" }

theorem C8_write_coalescing_witness :
    (setValuesStep (setDpUpd "1" (TVal.n 2) (setDpUpd "1" (TVal.n 1) c8Dev))).2 =
      [[("1", TVal.n 2)]] ∧
    setValuesStep (setValuesStep (setDpUpd "1" (TVal.n 2) (setDpUpd "1" (TVal.n 1) c8Dev))).1 =
      ({c8Dev with pending := []}, []) ∧
    dget [("1", TVal.n 2)] "1" = some (TVal.n 2) :=
  C8_write_coalescing c8Dev ⟨[]⟩ "1" (TVal.n 1) (TVal.n 2) rfl rfl

theorem dget_of_mem_nodup {α : Type} {k : String} {v : α} :
    ∀ d : List (String × α), (k, v) ∈ d → NodupKeys d → dget d k = some v := by
  intro d
  induction d with
  | nil => intro hm _; cases hm
  | cons p t ih =>
    intro hm hnd
    cases p with
    | mk k' v' =>
      have hnd' : k' ∉ t.map Prod.fst ∧ NodupKeys t := by
        simpa [NodupKeys] using hnd
      rcases List.mem_cons.mp hm with hm | hm
      · cases hm
        simp [dget]
      · have hk : k' ≠ k := fun he =>
          hnd'.1 (by rw [he]; exact List.mem_map_of_mem Prod.fst hm)
        simp only [dget]
        rw [if_neg hk]
        exact ih hm hnd'.2

theorem dset_self {α : Type} {d : List (String × α)} {k : String} {v : α}
    (hm : dget d k = some v) : dset d k v = d := by
  induction d with
  | nil => simp [dget] at hm
  | cons p t ih =>
    cases p with
    | mk k' v' =>
      by_cases hk : k' = k
      · subst hk
        simp [dget] at hm
        simp [dset, hm]
      · simp only [dget, if_neg hk] at hm
        simp [dset, if_neg hk, ih hm]

theorem dupdate_cons {α : Type} (d : List (String × α)) (p : String × α)
    (u : List (String × α)) :
    dupdate d (p :: u) = dupdate (dset d p.1 p.2) u := rfl

theorem dupdate_self_of_sub {α : Type} (d : List (String × α)) :
    ∀ u : List (String × α), (∀ p ∈ u, dget d p.1 = some p.2) → dupdate d u = d := by
  intro u
  induction u with
  | nil => intro _; rfl
  | cons p u' ih =>
    intro h
    rw [dupdate_cons, dset_self (h p (List.mem_cons_self p u'))]
    exact ih (fun q hq => h q (List.mem_cons_of_mem p hq))

/-- Updating a key-unique dict with itself leaves it unchanged
(`self._pending_status.update(self._pending_status)` inside the connect
flush is a no-op on the pending dict). -/
theorem dupdate_self {α : Type} (d : List (String × α)) (hnd : NodupKeys d) :
    dupdate d d = d :=
  dupdate_self_of_sub d d (fun p hp => dget_of_mem_nodup d (by simpa using hp) hnd)

/-- Concrete device used to refute C2: `sleep_time = 1 > 0`, disconnected,
and the last status update lies 10 seconds in the past, so `is_sleep` is
false at `now = 10`. -/
def c2Dev : DState :=
  { is_closing := false, connect_task := false, interface := none,
    pending := [], status := [], last_update_time := 0, sleep_time := 1,
    node_id := none, fake_gateway := false, unsub_interval := false,
    shutdown_delay := false, dev_id := "dev2" }

/-- C2 counterexample: a device with `sleepTime > 0` that is disconnected
drops a `set_dp` write entirely (PendingWrites stays empty) once more than
`sleepTime` seconds have passed since its last update — `is_sleep` is false
although `sleepTime > 0`, so the claim that every `sleepTime > 0` device
queues writes while disconnected is false. -/
theorem C2_counterexample :
    c2Dev.sleep_time > 0 ∧ c2Dev.interface = none ∧
    setDp c2Dev 10 (TVal.n 5) "1" = (c2Dev, []) ∧
    (setDp c2Dev 10 (TVal.n 5) "1").1.pending = [] := by
  refine ⟨by decide, rfl, ?_, ?_⟩ <;> decide

/-- C2 as amended: while disconnected, a `set_dp` / `set_dps` write is queued
into PendingWrites exactly when the device is currently considered asleep
(`sleepTime > 0` and the last update is less than `sleepTime` seconds old);
otherwise — including every `sleepTime = 0` device — the write changes no
state.  The accumulated PendingWrites are flushed in full, and only once, by
the flush step at the end of a successful connect. -/
theorem C2_sleep_write_queueing :
    (∀ (s : DState) (now : Int) (v : TVal) (dp : String),
        s.interface = none → is_sleep s now = true →
        setDp s now v dp = ({s with pending := dupdate s.pending [(dp, v)]}, [])) ∧
    (∀ (s : DState) (now : Int) (v : TVal) (dp : String),
        s.interface = none → is_sleep s now = false →
        setDp s now v dp = (s, [])) ∧
    (∀ (s : DState) (now : Int) (states : Dict),
        s.interface = none → is_sleep s now = true →
        setDps s now states = ({s with pending := dupdate s.pending states}, [])) ∧
    (∀ (s : DState) (now : Int) (states : Dict),
        s.interface = none → is_sleep s now = false →
        setDps s now states = (s, [])) ∧
    (∀ (s : DState) (now : Int),
        s.interface.isSome = true → s.pending ≠ [] → NodupKeys s.pending →
        connectFlushTail s now = ({s with pending := []}, [s.pending])) := by
  refine ⟨?_, ?_, ?_, ?_, ?_⟩
  · intro s now v dp hi hs
    simp [setDp, hi, hs]
  · intro s now v dp hi hs
    simp [setDp, hi, hs]
  · intro s now states hi hs
    simp [setDps, hi, hs]
  · intro s now states hi hs
    simp [setDps, hi, hs]
  · intro s now hi hp hnd
    unfold connectFlushTail
    rw [if_pos hp]
    unfold setDps
    rw [if_pos hi, dupdate_self s.pending hnd]
    unfold setValuesStep
    simp [hi, hp]

/-- Concrete sleeping device (asleep window still open at `now = 5`) used to
witness the amended C2. -/
def c2SleepDev : DState :=
  { is_closing := false, connect_task := false, interface := none,
    pending := [], status := [], last_update_time := 0, sleep_time := 10,
    node_id := none, fake_gateway := false, unsub_interval := false,
    shutdown_delay := false, dev_id := "dev2s" }

/-- Concrete connected device with one queued write, witnessing the
connect-time flush. -/
def c2FlushDev : DState :=
  { is_closing := false, connect_task := false, interface := some ⟨[]⟩,
    pending := [("1", TVal.n 5)], status := [], last_update_time := 0,
    sleep_time := 10, node_id := none, fake_gateway := false,
    unsub_interval := false, shutdown_delay := false, dev_id := "dev2f" }

theorem C2_sleep_write_queueing_witness :
    setDp c2SleepDev 5 (TVal.n 5) "1" =
      ({c2SleepDev with pending := dupdate c2SleepDev.pending [("1", TVal.n 5)]}, []) ∧
    setDp c2Dev 10 (TVal.n 5) "1" = (c2Dev, []) ∧
    connectFlushTail c2FlushDev 5 = ({c2FlushDev with pending := []}, [c2FlushDev.pending]) :=
  ⟨C2_sleep_write_queueing.1 c2SleepDev 5 (TVal.n 5) "1" rfl (by decide),
   C2_sleep_write_queueing.2.1 c2Dev 10 (TVal.n 5) "1" rfl (by decide),
   C2_sleep_write_queueing.2.2.2.2 c2FlushDev 5 (by decide) (by decide) (by decide)⟩

/-- Value stored inside an event-bus payload: the status dicts, strings and
DP values that `_handle_event` puts into `data`. -/
inductive EVal where
  | d (x : Dict)
  | od (x : Option Dict)
  | s (x : String)
  | t (x : Option TVal)
deriving DecidableEq, Repr

/-- Event payload dict, as handed to `hass.bus.async_fire`. -/
abbrev EDict := List (String × EVal)

/-- Home Assistant constant `CONF_DEVICE_ID`. -/
def CONF_DEVICE_ID : String := "device_id"

/-- Python `old_status != new_status` where the right side may be `None`. -/
def pyNeqO (old : Dict) : Option Dict → Bool
  | none => true
  | some n2 => !(pyEqD old n2)

/-- Python `list(d)[0]`: the first key of a dict (insertion order). -/
def dfirstKey (d : Dict) : String :=
  match d with
  | [] => ""
  | p :: _ => p.1

/-- Inner helper `fire_event` of `_handle_event` (common.py lines 496-501):
build `event_data` from the device id plus `data` and fire
`localtuya_<event>` when the combined payload has more than one entry. -/
def fireEvent (devId : String) (event : String) (data : EDict) : List (String × EDict) :=
  let event_data := dupdate [(CONF_DEVICE_ID, EVal.s devId)] data
  if 1 < event_data.length then [("localtuya_" ++ event, event_data)] else []

/-- Method `_handle_event` (common.py lines 493-525).  `old` is the cached
`self._status`, `nw` the incoming status (`None` possible in principle),
`dispatched` is `self._interface.dispatched_dps` when an interface is
present, `none` when `self._interface is None`. -/
def handleEvent (devId : String) (old : Dict) (nw : Option Dict)
    (dispatched : Option Dict) : List (String × EDict) :=
  (if old ≠ [] ∧ pyNeqO old nw = true then
    fireEvent devId "states_update"
      [("old_states", EVal.d old), ("new_states", EVal.od nw)]
  else []) ++
  (match nw with
   | none => []
   | some nst =>
     if old ≠ [] then
       fireEvent devId "device_triggered" [("states", EVal.d nst)] ++
       (match dispatched with
        | none => []
        | some dd =>
          if dd.length = 1 then
            fireEvent devId "device_dp_triggered"
              [("dp", EVal.s (dfirstKey dd)), ("value", EVal.t (dget dd (dfirstKey dd)))]
          else [])
     else [])

/-- Whether an event with the given bus name appears in a fired-events list. -/
def firedName (evs : List (String × EDict)) (nm : String) : Bool :=
  evs.any (fun e => e.1 == nm)

/-- Truthiness of the `len(self._interface.dispatched_dps) == 1` test, lifted
over the interface option. -/
def dispLenOne : Option Dict → Bool
  | none => false
  | some dd => decide (dd.length = 1)

/-- Modelled from the spec claim's words, for comparison only: the set of DP
ids whose value differs between the old and the new status ("exactly one DP
changed in this update"). -/
def claimChangedDPs (old nw : Dict) : List String :=
  ((old.map Prod.fst) ++ (nw.map Prod.fst)).dedup.filter
    (fun k => decide (dget old k ≠ dget nw k))

/-- C5 counterexample: with cached status `{a:1}`, incoming status `{a:1}`
(zero DPs changed) and a transport whose last message carried the single DP
`a`, the code fires `device_dp_triggered` — so the event does not fire "if
and only if exactly one DP changed in that update". -/
theorem C5_counterexample :
    firedName
      (handleEvent "d" [("a", TVal.n 1)] (some [("a", TVal.n 1)])
        (some [("a", TVal.n 1)])) "localtuya_device_dp_triggered" = true ∧
    claimChangedDPs [("a", TVal.n 1)] [("a", TVal.n 1)] = [] := by
  decide

/-- C5 as amended: `device_dp_triggered` fires if and only if the cached
status is non-empty, the incoming status is not `None`, an interface is
present, and the interface's last dispatched message carried exactly one DP
(whether or not its value changed); the event then carries that DP id and
its dispatched value. -/
theorem C5_dp_triggered (devId : String) (old : Dict) (nw : Option Dict)
    (disp : Option Dict) :
    (firedName (handleEvent devId old nw disp) "localtuya_device_dp_triggered"
      = (decide (old ≠ []) && nw.isSome && dispLenOne disp)) ∧
    (∀ (k : String) (v : TVal) (nst : Dict), old ≠ [] → nw = some nst →
      disp = some [(k, v)] →
      ("localtuya_device_dp_triggered",
        [(CONF_DEVICE_ID, EVal.s devId), ("dp", EVal.s k), ("value", EVal.t (some v))])
        ∈ handleEvent devId old nw disp) := by
  constructor
  · unfold handleEvent firedName
    cases nw with
    | none =>
      by_cases hold : old = [] <;>
        simp_all [fireEvent, dupdate, dset, CONF_DEVICE_ID, dispLenOne, pyNeqO]
    | some nst =>
      by_cases hold : old = [] <;>
        cases disp with
        | none =>
          by_cases hne : pyNeqO old (some nst) = true <;>
            simp_all [fireEvent, dupdate, dset, CONF_DEVICE_ID, dispLenOne]
        | some dd =>
          by_cases hne : pyNeqO old (some nst) = true <;>
            by_cases hdd : dd.length = 1 <;>
              simp_all [fireEvent, dupdate, dset, CONF_DEVICE_ID, dispLenOne]
  · intro k v nst hold hnw hdisp
    subst hnw; subst hdisp
    unfold handleEvent
    by_cases hne : pyNeqO old (some nst) = true <;>
      simp_all [fireEvent, dupdate, dset, CONF_DEVICE_ID, dfirstKey, dget]

/-- Concrete inputs witnessing both parts of the amended C5. -/
theorem C5_dp_triggered_witness :
    (firedName
      (handleEvent "d" [("a", TVal.n 1)] (some [("a", TVal.n 2)])
        (some [("a", TVal.n 2)])) "localtuya_device_dp_triggered"
      = (decide (([("a", TVal.n 1)] : Dict) ≠ []) &&
          (some [("a", TVal.n 2)] : Option Dict).isSome &&
          dispLenOne (some [("a", TVal.n 2)]))) ∧
    ("localtuya_device_dp_triggered",
      [(CONF_DEVICE_ID, EVal.s "d"), ("dp", EVal.s "a"), ("value", EVal.t (some (TVal.n 2)))])
      ∈ handleEvent "d" [("a", TVal.n 1)] (some [("a", TVal.n 2)]) (some [("a", TVal.n 2)]) :=
  ⟨(C5_dp_triggered "d" [("a", TVal.n 1)] (some [("a", TVal.n 2)]) (some [("a", TVal.n 2)])).1,
   (C5_dp_triggered "d" [("a", TVal.n 1)] (some [("a", TVal.n 2)]) (some [("a", TVal.n 2)])).2
     "a" (TVal.n 2) [("a", TVal.n 2)] (by decide) rfl rfl⟩

/-- C6 counterexample: with an empty cached status (device initialising) and
incoming status `{a:1}`, old and new differ but no `states_update` event is
fired — the code additionally requires the old status to be non-empty. -/
theorem C6_counterexample :
    firedName (handleEvent "d" [] (some [("a", TVal.n 1)]) none)
      "localtuya_states_update" = false ∧
    pyEqD [] [("a", TVal.n 1)] = false := by
  decide

/-- C6 as amended: a `states_update` notification carrying the old and new
states fires if and only if the old cached status is non-empty and differs
from the new status. -/
theorem C6_states_update (devId : String) (old : Dict) (nw : Option Dict)
    (disp : Option Dict) :
    (firedName (handleEvent devId old nw disp) "localtuya_states_update"
      = (decide (old ≠ []) && pyNeqO old nw)) ∧
    (old ≠ [] → pyNeqO old nw = true →
      ("localtuya_states_update",
        [(CONF_DEVICE_ID, EVal.s devId), ("old_states", EVal.d old), ("new_states", EVal.od nw)])
        ∈ handleEvent devId old nw disp) := by
  constructor
  · unfold handleEvent firedName
    cases nw with
    | none =>
      by_cases hold : old = [] <;>
        simp_all [fireEvent, dupdate, dset, CONF_DEVICE_ID, pyNeqO]
    | some nst =>
      by_cases hold : old = [] <;>
        cases disp with
        | none =>
          by_cases hne : pyNeqO old (some nst) = true <;>
            simp_all [fireEvent, dupdate, dset, CONF_DEVICE_ID]
        | some dd =>
          by_cases hne : pyNeqO old (some nst) = true <;>
            by_cases hdd : dd.length = 1 <;>
              simp_all [fireEvent, dupdate, dset, CONF_DEVICE_ID]
  · intro hold hne
    unfold handleEvent
    simp [hold, hne, fireEvent, dupdate, dset, CONF_DEVICE_ID]

/-- Concrete inputs witnessing both parts of the amended C6. -/
theorem C6_states_update_witness :
    (firedName (handleEvent "d" [("a", TVal.n 1)] (some [("a", TVal.n 2)]) none)
      "localtuya_states_update"
      = (decide (([("a", TVal.n 1)] : Dict) ≠ []) &&
          pyNeqO [("a", TVal.n 1)] (some [("a", TVal.n 2)]))) ∧
    ("localtuya_states_update",
      [(CONF_DEVICE_ID, EVal.s "d"), ("old_states", EVal.d [("a", TVal.n 1)]),
        ("new_states", EVal.od (some [("a", TVal.n 2)]))])
      ∈ handleEvent "d" [("a", TVal.n 1)] (some [("a", TVal.n 2)]) none :=
  ⟨(C6_states_update "d" [("a", TVal.n 1)] (some [("a", TVal.n 2)]) none).1,
   (C6_states_update "d" [("a", TVal.n 1)] (some [("a", TVal.n 2)]) none).2
     (by decide) (by decide)⟩

/-- Method `_shutdown_entities` (common.py lines 527-535): clear the delayed
handle; do nothing for a currently sleeping device; dispatch `None` on the
device signal (mark entities unavailable, second component `true`) only when
still not connected. -/
def shutdownEntities (s : DState) (now : Int) : DState × Bool :=
  let s1 := {s with shutdown_delay := false}
  if is_sleep s1 now then (s1, false)
  else if s1.interface.isSome then (s1, false)
  else (s1, true)

/-- Method `abort_connect` (common.py lines 376-387): a subdevice drops its
borrowed interface and its connect task; any own interface is closed and
cleared; for a non-sleeping device the entities are shut down synchronously. -/
def abortConnect (s : DState) (now : Int) : DState :=
  let s1 := if is_subdevice s then {s with interface := none, connect_task := false} else s
  let s2 := if s1.interface.isSome then {s1 with interface := none} else s1
  if is_sleep s2 now then s2 else (shutdownEntities s2 now).1

/-- Method `status_updated` (common.py lines 537-547): fake gateways ignore
status; otherwise record the update time, run the event fan-out against the
cached status, then merge the new status into the cache. -/
def statusUpdatedD (s : DState) (now : Int) (st : Dict) : DState × List (String × EDict) :=
  if s.fake_gateway then (s, [])
  else
    let evs := handleEvent s.dev_id s.status (some st)
      (Option.map Iface.dispatched_dps s.interface)
    ({s with last_update_time := now, status := dupdate s.status st}, evs)

/-- Outcome of the initial-state phase of `_make_connection`. -/
structure PhaseResult where
  state : DState
  heartbeat : Bool
  published : Option Dict
  events : List (String × EDict)
deriving DecidableEq, Repr

/-- Initial-state phase of `_make_connection` (common.py lines 300-337,
non-`reset_dpids` configuration): with an interface obtained, the result of
`detect_available_dps` decides the outcome.  `None` raises
`Exception("Failed to retrieve status")`, which the generic handler catches
(its message never contains "Not found") and answers with a warning and
`abort_connect`; any dict — including the empty one — starts the heartbeat
and goes through `status_updated`. -/
def statusPhase (s : DState) (now : Int) (detect : Option Dict) : PhaseResult :=
  if s.interface.isSome then
    match detect with
    | none =>
      { state := abortConnect s now, heartbeat := false, published := none, events := [] }
    | some st =>
      let r := statusUpdatedD s now st
      { state := r.1, heartbeat := true, published := some st, events := r.2 }
  else
    { state := s, heartbeat := false, published := none, events := [] }

/-- Action scheduled with `async_call_later` by `disconnected`. -/
inductive SAct where
  | reconnect
  | shutdown
deriving DecidableEq, Repr

/-- Method `disconnected` (common.py lines 549-574): clear the refresh timer
and the interface, cancel any connect task (the cascade applies the same
function to each subdevice's own state); if not deliberately closing,
schedule a reconnect at +1 s — but only for non-subdevices — and schedule
the entity shutdown at +(sleep_time + 3) s. -/
def disconnectedFn (s : DState) : DState × List (Int × SAct) :=
  let s1 := {s with unsub_interval := false, interface := none, connect_task := false}
  let sched1 : List (Int × SAct) :=
    if ¬ s1.is_closing ∧ ¬ (is_subdevice s1 = true) then [(1, SAct.reconnect)] else []
  let sched2 : List (Int × SAct) :=
    if ¬ s1.is_closing then [(s1.sleep_time + 3, SAct.shutdown)] else []
  let s2 := if ¬ s1.is_closing then {s1 with shutdown_delay := true} else s1
  (s2, sched1 ++ sched2)

theorem abortConnect_interface_none (s : DState) (now : Int) :
    (abortConnect s now).interface = none := by
  unfold abortConnect shutdownEntities
  by_cases h1 : is_subdevice s = true <;>
    simp [h1] <;> split_ifs <;> simp_all

/-- Concrete connected device used to refute C4 with an empty (but present)
status result. -/
def c4Dev : DState :=
  { is_closing := false, connect_task := true, interface := some ⟨[]⟩,
    pending := [], status := [("a", TVal.n 1)], last_update_time := 0,
    sleep_time := 0, node_id := none, fake_gateway := false,
    unsub_interval := false, shutdown_delay := false, dev_id := "dev4" }

/-- C4 counterexample: when the full status query returns an empty status
dict `{}` (present but empty), the connect is NOT aborted — the code keeps
the transport, starts the heartbeat and publishes the empty status, because
it only checks `status is None`. -/
theorem C4_counterexample :
    (statusPhase c4Dev 5 (some [])).heartbeat = true ∧
    (statusPhase c4Dev 5 (some [])).state.interface = some ⟨[]⟩ ∧
    (statusPhase c4Dev 5 (some [])).published = some [] := by
  refine ⟨?_, ?_, ?_⟩ <;> decide

/-- C4 as amended: only when the full status query returns no result at all
(`None`) is the connect treated as failed and aborted — the interface is
closed and cleared, and neither heartbeat start nor status publication
happens; an empty status dict instead proceeds as a success. -/
theorem C4_empty_status_abort (s : DState) (now : Int)
    (hi : s.interface.isSome = true) :
    (statusPhase s now none).state.interface = none ∧
    (statusPhase s now none).heartbeat = false ∧
    (statusPhase s now none).published = none ∧
    (∀ st : Dict, (statusPhase s now (some st)).heartbeat = true ∧
      (statusPhase s now (some st)).published = some st) := by
  refine ⟨?_, ?_, ?_, ?_⟩
  · unfold statusPhase
    rw [if_pos hi]
    exact abortConnect_interface_none s now
  · unfold statusPhase
    rw [if_pos hi]
  · unfold statusPhase
    rw [if_pos hi]
  · intro st
    unfold statusPhase
    rw [if_pos hi]
    exact ⟨rfl, rfl⟩

theorem C4_empty_status_abort_witness :
    (statusPhase c4Dev 5 none).state.interface = none ∧
    (statusPhase c4Dev 5 none).heartbeat = false ∧
    (statusPhase c4Dev 5 none).published = none ∧
    (∀ st : Dict, (statusPhase c4Dev 5 (some st)).heartbeat = true ∧
      (statusPhase c4Dev 5 (some st)).published = some st) :=
  C4_empty_status_abort c4Dev 5 (by decide)

/-- C7: on an unexpected disconnect (`disconnected()` while not closing), a
non-subdevice schedules a reconnect at +1 s; a subdevice schedules no
reconnect at all; the entity shutdown is scheduled at +(sleep_time + 3) s;
and when the shutdown later runs on a device that has reconnected before the
deadline (interface present again) it does not mark the entities
unavailable. -/
theorem C7_disconnect_schedule (s : DState) (h : s.is_closing = false) :
    (is_subdevice s = false → (disconnectedFn s).2 =
      [(1, SAct.reconnect), (s.sleep_time + 3, SAct.shutdown)]) ∧
    (is_subdevice s = true → ∀ d : Int, (d, SAct.reconnect) ∉ (disconnectedFn s).2) ∧
    ((s.sleep_time + 3, SAct.shutdown) ∈ (disconnectedFn s).2) ∧
    (∀ (s2 : DState) (now : Int), s2.interface.isSome = true →
      (shutdownEntities s2 now).2 = false) := by
  have hsched : (disconnectedFn s).2 =
      (if is_subdevice s = true then [] else [(1, SAct.reconnect)]) ++
      [(s.sleep_time + 3, SAct.shutdown)] := by
    cases hsub : is_subdevice s with
    | false =>
      have hsub' : (truthyStr s.node_id && !s.fake_gateway) = false := hsub
      simp [disconnectedFn, is_subdevice, h, hsub']
    | true =>
      have hsub' : (truthyStr s.node_id && !s.fake_gateway) = true := hsub
      simp [disconnectedFn, is_subdevice, h, hsub']
  refine ⟨?_, ?_, ?_, ?_⟩
  · intro hsub
    rw [hsched]
    simp [hsub]
  · intro hsub d
    rw [hsched]
    simp [hsub]
  · rw [hsched]
    by_cases hsub : is_subdevice s = true <;> simp [hsub]
  · intro s2 now hi
    by_cases hs : is_sleep {s2 with shutdown_delay := false} now = true <;>
      simp [shutdownEntities, hs, hi]

/-- Concrete non-closing, non-subdevice used to witness C7. -/
def c7Dev : DState :=
  { is_closing := false, connect_task := false, interface := some ⟨[]⟩,
    pending := [], status := [], last_update_time := 0, sleep_time := 4,
    node_id := none, fake_gateway := false, unsub_interval := true,
    shutdown_delay := false, dev_id := "dev7" }

theorem C7_disconnect_schedule_witness :
    (is_subdevice c7Dev = false → (disconnectedFn c7Dev).2 =
      [(1, SAct.reconnect), (c7Dev.sleep_time + 3, SAct.shutdown)]) ∧
    (is_subdevice c7Dev = true → ∀ d : Int, (d, SAct.reconnect) ∉ (disconnectedFn c7Dev).2) ∧
    ((c7Dev.sleep_time + 3, SAct.shutdown) ∈ (disconnectedFn c7Dev).2) ∧
    (∀ (s2 : DState) (now : Int), s2.interface.isSome = true →
      (shutdownEntities s2 now).2 = false) :=
  C7_disconnect_schedule c7Dev (by decide)

/-- One device record returned by the Cloud API (`cloud_api.device_list`);
only the fields read by `update_local_key` are modelled. -/
structure CloudDev where
  local_key : Option String
  node_id : Option String
deriving DecidableEq, Repr

/-- Persisted per-device configuration inside the config entry
(`config_entry.data[CONF_DEVICES][dev_id]`); only the fields written by
`update_local_key` are modelled. -/
structure DevEntry where
  local_key : String
  node_id : Option String
  gateway_id : Option String
  host : String
deriving DecidableEq, Repr

/-- Persisted configuration (`config_entry.data`): the devices dict plus the
`updated_at` stamp that `update_local_key` writes. -/
structure EntryData where
  devices : List (String × DevEntry)
  updated_at : Option String
deriving DecidableEq, Repr

/-- Per-device entry rewrite performed by `update_local_key` once a new key
was accepted: for a sub-device (`self._node_id` truthy) the node id, gateway
id and possibly the host are refreshed first, then the local key is stored
(common.py lines 430-448). -/
def entryRotate (cd : CloudDev) (node_id : Option String) (gw_id : String)
    (disc_ip : Option String) (ck : String) (e : DevEntry) : DevEntry :=
  let e3 :=
    if truthyStr node_id then
      let e1 := match cd.node_id with
        | some nn => if nn ≠ "" then {e with node_id := some nn} else e
        | none => e
      let e2 := {e1 with gateway_id := some gw_id}
      match disc_ip with
      | some ip => {e2 with host := ip}
      | none => e2
    else e
  {e3 with local_key := ck}

/-- Method `update_local_key` (common.py lines 414-453).  `gw_id` stands in
for the id returned by the helper `get_gateway_by_deviceid` (whose source is
outside the verified files) and `disc_ip` for the discovery-cache IP lookup;
both are consulted only on the sub-device branch.  Returns the in-memory
local key after the call, the persisted configuration after the call, and
whether `async_update_entry` was invoked. -/
def updateLocalKey (dev_id cur_key : String) (cloud_devs : List (String × CloudDev))
    (cfg : EntryData) (node_id : Option String) (gw_id : String)
    (disc_ip : Option String) (now : String) : String × EntryData × Bool :=
  match dget cloud_devs dev_id with
  | none => (cur_key, cfg, false)
  | some cd =>
    match cd.local_key with
    | none => (cur_key, cfg, false)
    | some ck =>
      if ck = "" ∨ cur_key = ck then (cur_key, cfg, false)
      else
        let devs := match dget cfg.devices dev_id with
          | some e => dset cfg.devices dev_id (entryRotate cd node_id gw_id disc_ip ck e)
          | none => cfg.devices
        (ck, { devices := devs, updated_at := some now }, true)

theorem dget_dset_self {α : Type} (k : String) (v : α) :
    ∀ d : List (String × α), dget (dset d k v) k = some v := by
  intro d
  induction d with
  | nil => simp [dget, dset]
  | cons p t ih =>
    cases p with
    | mk k' v' =>
      by_cases hk : k' = k
      · simp [dget, dset, hk]
      · simp [dget, dset, hk, ih]

/-- C9: key rotation is a no-op on the adopted local key and the persisted
configuration whenever the Cloud API returns no record for the device id, no
local key, an empty local key, or a key equal to the current one; only a
different non-empty key updates both the in-memory key and the persisted
device entry. -/
theorem C9_key_rotation (dev_id cur_key : String) (cloud_devs : List (String × CloudDev))
    (cfg : EntryData) (node_id : Option String) (gw_id : String)
    (disc_ip : Option String) (now : String) :
    (dget cloud_devs dev_id = none →
      updateLocalKey dev_id cur_key cloud_devs cfg node_id gw_id disc_ip now =
        (cur_key, cfg, false)) ∧
    (∀ cd : CloudDev, dget cloud_devs dev_id = some cd → cd.local_key = none →
      updateLocalKey dev_id cur_key cloud_devs cfg node_id gw_id disc_ip now =
        (cur_key, cfg, false)) ∧
    (∀ (cd : CloudDev) (ck : String), dget cloud_devs dev_id = some cd →
      cd.local_key = some ck → ck = "" ∨ cur_key = ck →
      updateLocalKey dev_id cur_key cloud_devs cfg node_id gw_id disc_ip now =
        (cur_key, cfg, false)) ∧
    (∀ (cd : CloudDev) (ck : String), dget cloud_devs dev_id = some cd →
      cd.local_key = some ck → ¬ ck = "" → ¬ cur_key = ck →
      (updateLocalKey dev_id cur_key cloud_devs cfg node_id gw_id disc_ip now).1 = ck ∧
      (updateLocalKey dev_id cur_key cloud_devs cfg node_id gw_id disc_ip now).2.2 = true ∧
      (∀ e : DevEntry, dget cfg.devices dev_id = some e →
        ∃ e2 : DevEntry,
          dget (updateLocalKey dev_id cur_key cloud_devs cfg node_id gw_id disc_ip now).2.1.devices
            dev_id = some e2 ∧ e2.local_key = ck)) := by
  refine ⟨?_, ?_, ?_, ?_⟩
  · intro hc
    simp only [updateLocalKey, hc]
  · intro cd hc hk
    simp only [updateLocalKey, hc, hk]
  · intro cd ck hc hk hor
    simp only [updateLocalKey, hc, hk]
    rw [if_pos hor]
  · intro cd ck hc hk hne1 hne2
    simp only [updateLocalKey, hc, hk]
    rw [if_neg (by tauto)]
    refine ⟨rfl, rfl, ?_⟩
    intro e he
    simp only [he]
    exact ⟨entryRotate cd node_id gw_id disc_ip ck e, dget_dset_self _ _ _, rfl⟩

/-- Concrete persisted configuration used to witness C9. -/
def c9Cfg : EntryData := ⟨[("dev", ⟨"k0", none, none, "h"⟩)], none⟩

/-- Concrete cloud responses witnessing the no-op and update branches of C9. -/
theorem C9_key_rotation_witness :
    (updateLocalKey "dev" "k0" [] c9Cfg none "g" none "1" = ("k0", c9Cfg, false)) ∧
    (updateLocalKey "dev" "k0" [("dev", ⟨some "k0", none⟩)] c9Cfg none "g" none "1"
      = ("k0", c9Cfg, false)) ∧
    ((updateLocalKey "dev" "k0" [("dev", ⟨some "k1", none⟩)] c9Cfg none "g" none "1").1
        = "k1" ∧
      (updateLocalKey "dev" "k0" [("dev", ⟨some "k1", none⟩)] c9Cfg none "g" none "1").2.2
        = true) :=
  ⟨(C9_key_rotation "dev" "k0" [] c9Cfg none "g" none "1").1 rfl,
   (C9_key_rotation "dev" "k0" [("dev", ⟨some "k0", none⟩)] c9Cfg none "g" none "1").2.2.1
     ⟨some "k0", none⟩ "k0" (by decide) rfl (Or.inr rfl),
   ⟨((C9_key_rotation "dev" "k0" [("dev", ⟨some "k1", none⟩)] c9Cfg none "g" none "1").2.2.2
       ⟨some "k1", none⟩ "k1" (by decide) rfl (by decide) (by decide)).1,
    ((C9_key_rotation "dev" "k0" [("dev", ⟨some "k1", none⟩)] c9Cfg none "g" none "1").2.2.2
       ⟨some "k1", none⟩ "k1" (by decide) rfl (by decide) (by decide)).2.1⟩⟩

/-- Home Assistant constant `STATE_UNKNOWN` as a DP value. -/
def STATE_UNKNOWN : TVal := TVal.s "unknown"

/-- State of one `LocalTuyaEntity` (common.py, class LocalTuyaEntity): the
cached status dict, the current and last states, and the per-entity
configuration read by the restore logic (`restore_on_reconnect`,
`passive_entity`, `default_value`, and the config-key-to-DP mapping that
`dp_value` consults on its second lookup). -/
structure EState where
  dp_id : String
  status : Dict
  state : Option TVal
  last_state : Option TVal
  restore_on_reconnect : Bool
  passive_entity : Bool
  default_value : Option TVal
  conf : List (String × String)
deriving DecidableEq, Repr

/-- Method `dp_value` (common.py lines 722-738): look the key up in the
cached status; failing that, treat it as a config key, map it to a DP id and
look that up; failing that, return the supplied default. -/
def dp_value (e : EState) (key : String) (default : Option TVal) : Option TVal :=
  match dget e.status key with
  | some v => some v
  | none =>
    match dget e.conf key with
    | some ck =>
      match dget e.status ck with
      | some v => some v
      | none => default
    | none => default

/-- Method `status_updated` of the entity (common.py lines 740-751): cache
the DP's current value in `_state`, and mirror it into `_last_state` when it
is not `None` and the device is not mid-(re)connection. -/
def entityStatusUpdated (connecting : Bool) (e : EState) : EState :=
  let st := dp_value e e.dp_id none
  let e1 := {e with state := st}
  if st.isSome ∧ ¬ connecting then {e1 with last_state := st} else e1

/-- Status delivery to an entity (the `_update_handler` in
`async_added_to_hass`, common.py lines 618-635, for a non-empty changed
status): replace the cached status dict, then run `status_updated`. -/
def applyStatus (st : Dict) (connecting : Bool) (e : EState) : EState :=
  entityStatusUpdated connecting {e with status := st}

/-- Method `status_restored` (common.py lines 753-763): adopt the persisted
attribute value (from the durable restore store) into `_last_state` when one
exists. -/
def entityStatusRestored (stored : Option TVal) (e : EState) : EState :=
  match stored with
  | some v => {e with last_state := some v}
  | none => e

/-- Method `default_value` (common.py lines 765-781): the configured default,
falling back to the entity-type default (`entity_default_value`, 0 in the
base class). -/
def defaultValue (e : EState) : TVal :=
  e.default_value.getD (TVal.n 0)

/-- Method `restore_state_when_connected` (common.py lines 791-832): returns
the value handed to `set_dp`, or `none` when no restore write happens. -/
def restoreStateWhenConnected (e : EState) : Option TVal :=
  if ¬ e.restore_on_reconnect ∧ ((dget e.status e.dp_id).isSome ∨ ¬ e.passive_entity) then
    none
  else
    let r0 := e.state
    let r1 := if r0 = some STATE_UNKNOWN ∨ r0 = none then e.last_state else r0
    match r1 with
    | none => if e.passive_entity then some (defaultValue e) else none
    | some v => some v

/-- Fresh restorable entity used for the C3 trace: restore-on-reconnect
enabled, no state yet. -/
def c3Entity : EState :=
  { dp_id := "1", status := [], state := none, last_state := none,
    restore_on_reconnect := true, passive_entity := true,
    default_value := none, conf := [] }

/-- C3 counterexample: start an entity, restore the persisted prior value 5
from the durable store, then receive a live status `{1: 7}` while not
connecting (so 7 becomes both the in-memory state and `_last_state`).  The
reconnect restore then writes 7 — the in-memory value — although a persisted
prior value (5) existed, so the claimed priority "persisted first, then
in-memory cache" does not hold: the code consults `self._state` first, and
`_last_state` no longer holds the persisted 5 anyway. -/
theorem C3_counterexample :
    restoreStateWhenConnected
      (applyStatus [("1", TVal.n 7)] false
        (entityStatusRestored (some (TVal.n 5)) c3Entity)) = some (TVal.n 7) ∧
    TVal.n 7 ≠ TVal.n 5 := by
  refine ⟨by decide, by decide⟩

/-- C3 as amended: when the restore guard passes, the value written back by
`restore_state_when_connected` is resolved in this priority order: (1) the
entity's current in-memory `_state` (when set and not "unknown"), then (2)
`_last_state` — which holds the durably persisted prior value only until a
live update overwrites it — then (3) the type-specific default, for passive
entities only; a non-passive entity with neither state available restores
nothing. -/
theorem C3_restore_priority :
    (∀ (e : EState) (v : TVal),
      (e.restore_on_reconnect = true ∨ (dget e.status e.dp_id = none ∧ e.passive_entity = true)) →
      e.state = some v → v ≠ STATE_UNKNOWN →
      restoreStateWhenConnected e = some v) ∧
    (∀ (e : EState) (w : TVal),
      (e.restore_on_reconnect = true ∨ (dget e.status e.dp_id = none ∧ e.passive_entity = true)) →
      (e.state = none ∨ e.state = some STATE_UNKNOWN) → e.last_state = some w →
      restoreStateWhenConnected e = some w) ∧
    (∀ e : EState,
      (e.restore_on_reconnect = true ∨ (dget e.status e.dp_id = none ∧ e.passive_entity = true)) →
      (e.state = none ∨ e.state = some STATE_UNKNOWN) → e.last_state = none →
      e.passive_entity = true →
      restoreStateWhenConnected e = some (defaultValue e)) ∧
    (∀ e : EState,
      (e.restore_on_reconnect = true ∨ (dget e.status e.dp_id = none ∧ e.passive_entity = true)) →
      (e.state = none ∨ e.state = some STATE_UNKNOWN) → e.last_state = none →
      e.passive_entity = false →
      restoreStateWhenConnected e = none) := by
  have hguard : ∀ e : EState,
      (e.restore_on_reconnect = true ∨ (dget e.status e.dp_id = none ∧ e.passive_entity = true)) →
      ¬ (¬ e.restore_on_reconnect = true ∧
          ((dget e.status e.dp_id).isSome = true ∨ ¬ e.passive_entity = true)) := by
    intro e hg
    rcases hg with hg | hg
    · tauto
    · intro hcon
      rcases hcon.2 with hx | hx
      · rw [hg.1] at hx
        cases hx
      · exact hx hg.2
  refine ⟨?_, ?_, ?_, ?_⟩
  · intro e v hg hv hneq
    simp [restoreStateWhenConnected, hguard e hg, hv, hneq]
    all_goals (intro hr; rcases hg with hg2 | hg2 <;> simp_all)
  · intro e w hg hv hl
    rcases hv with hv | hv <;>
      simp [restoreStateWhenConnected, hguard e hg, hv, hl] <;>
        (intro hr; rcases hg with hg2 | hg2 <;> simp_all)
  · intro e hg hv hl hp
    rcases hv with hv | hv <;>
      simp [restoreStateWhenConnected, hguard e hg, hv, hl, hp] <;>
        all_goals (intro hr; rcases hg with hg2 | hg2 <;> simp_all)
  · intro e hg hv hl hp
    rcases hv with hv | hv <;>
      simp [restoreStateWhenConnected, hguard e hg, hv, hl, hp]

/-- Concrete entities witnessing all four tiers of the amended C3. -/
theorem C3_restore_priority_witness :
    restoreStateWhenConnected {c3Entity with state := some (TVal.n 7)} = some (TVal.n 7) ∧
    restoreStateWhenConnected {c3Entity with last_state := some (TVal.n 5)} = some (TVal.n 5) ∧
    restoreStateWhenConnected c3Entity = some (defaultValue c3Entity) ∧
    restoreStateWhenConnected {c3Entity with passive_entity := false} = none :=
  ⟨C3_restore_priority.1 {c3Entity with state := some (TVal.n 7)} (TVal.n 7)
      (Or.inl rfl) rfl (by decide),
   C3_restore_priority.2.1 {c3Entity with last_state := some (TVal.n 5)} (TVal.n 5)
      (Or.inl rfl) (Or.inl rfl) rfl,
   C3_restore_priority.2.2.1 c3Entity (Or.inl rfl) (Or.inl rfl) rfl rfl,
   C3_restore_priority.2.2.2 {c3Entity with passive_entity := false} (Or.inl rfl)
      (Or.inl rfl) rfl rfl⟩

/-- Home Assistant climate constant values (climate.const). -/
def HVAC_MODE_AUTO : String := "auto"

def HVAC_MODE_HEAT : String := "heat"

def HVAC_MODE_COOL : String := "cool"

def HVAC_MODE_DRY : String := "dry"

def HVAC_MODE_FAN_ONLY : String := "fan_only"

def FAN_AUTO : String := "auto"

def FAN_LOW : String := "low"

def FAN_MEDIUM : String := "medium"

def FAN_HIGH : String := "high"

/-- Property `hvac_modes` (climate.py lines 104-112). -/
def hvac_modes : List String :=
  [HVAC_MODE_AUTO, HVAC_MODE_HEAT, HVAC_MODE_COOL, HVAC_MODE_FAN_ONLY, HVAC_MODE_DRY]

/-- Property `fan_modes` (climate.py lines 156-159). -/
def fan_modes : List String := [FAN_AUTO, FAN_LOW, FAN_MEDIUM, FAN_HIGH]

/-- Python `key[:n] + c + key[n+1:]` on a key modelled as a character list. -/
def setk (key : List Char) (n : Nat) (c : Char) : List Char :=
  key.take n ++ c :: key.drop (n + 1)

/-- The IR key template of `encode` (climate.py line 216). -/
def baseKey : List Char := ("002$$0030B24DXFX0XXXX@%").toList

/-- Method `encode_temperature` (climate.py lines 261-305): for each
supported target temperature 17-30 the characters at positions 17 and 19 are
replaced; any other temperature leaves the key unchanged. -/
def encode_temperature (t : Int) (key : List Char) : List Char :=
  if t = 17 then setk (setk key 17 '0') 19 'F'
  else if t = 18 then setk (setk key 17 '1') 19 'E'
  else if t = 19 then setk (setk key 17 '3') 19 'C'
  else if t = 20 then setk (setk key 17 '2') 19 'D'
  else if t = 21 then setk (setk key 17 '6') 19 '9'
  else if t = 22 then setk (setk key 17 '7') 19 '8'
  else if t = 23 then setk (setk key 17 '5') 19 'A'
  else if t = 24 then setk (setk key 17 '4') 19 'B'
  else if t = 25 then setk (setk key 17 'C') 19 '3'
  else if t = 26 then setk (setk key 17 'D') 19 '2'
  else if t = 27 then setk (setk key 17 '9') 19 '6'
  else if t = 28 then setk (setk key 17 '8') 19 '7'
  else if t = 29 then setk (setk key 17 'A') 19 '5'
  else if t = 30 then setk (setk key 17 'B') 19 '4'
  else key

/-- Method `encode_fan_speed` (climate.py lines 245-259): each supported fan
mode replaces the characters at positions 13 and 15. -/
def encode_fan_speed (fan : String) (key : List Char) : List Char :=
  if fan = FAN_AUTO then setk (setk key 13 'B') 15 '4'
  else if fan = FAN_LOW then setk (setk key 13 '9') 15 '6'
  else if fan = FAN_MEDIUM then setk (setk key 13 '5') 15 'A'
  else if fan = FAN_HIGH then setk (setk key 13 '3') 15 'C'
  else key

/-- Method `encode_hvac_mode` (climate.py lines 225-243): auto/cool/heat
replace positions 18 and 20, dry replaces 13, 15, 18 and 20, and fan-only
splices the four characters "E41B" over positions 17-20
(`key[:17] + "E41B" + key[21:]`). -/
def encode_hvac_mode (hv : String) (key : List Char) : List Char :=
  if hv = HVAC_MODE_AUTO then setk (setk key 18 '8') 20 '7'
  else if hv = HVAC_MODE_COOL then setk (setk key 18 '0') 20 'F'
  else if hv = HVAC_MODE_HEAT then setk (setk key 18 'C') 20 '3'
  else if hv = HVAC_MODE_DRY then
    setk (setk (setk (setk key 13 '1') 15 'E') 18 '4') 20 'B'
  else if hv = HVAC_MODE_FAN_ONLY then
    key.take 17 ++ ('E' :: '4' :: '1' :: 'B' :: []) ++ key.drop 21
  else key

/-- The `COMMAND` payload template (climate.py lines 33-39); `type` is a
Lean keyword-adjacent name, stored as `ctype`. -/
structure Command where
  control : String
  head : String
  key1 : List Char
  ctype : Int
  delay : Int
deriving DecidableEq, Repr

/-- Method `encode` (climate.py lines 215-223): apply the temperature, fan
speed and hvac mode encoders, in that order, to the key template, and return
the command with that `key1`. -/
def encode (hv fan : String) (t : Int) : Command :=
  let key := baseKey
  let key := encode_temperature t key
  let key := encode_fan_speed fan key
  let key := encode_hvac_mode hv key
  { control := "send_ir", head := "010ed80000000000040015003d00a900c8",
    key1 := key, ctype := 0, delay := 300 }

/-- Frame property of an encoder step: on a 23-character key it preserves
length, the first 13 characters and the last 2 (positions 21-22) — that is,
it only ever replaces characters among positions 13-20. -/
def pres (f : List Char → List Char) : Prop :=
  ∀ key : List Char, key.length = 23 →
    (f key).length = 23 ∧ (f key).take 13 = key.take 13 ∧ (f key).drop 21 = key.drop 21

theorem pres_setk (n : Nat) (c : Char) (h1 : 13 ≤ n) (h2 : n ≤ 20) :
    pres (fun k => setk k n c) := by
  intro key hl
  have hA : (List.take n key).length = n := by
    rw [List.length_take]
    omega
  refine ⟨?_, ?_, ?_⟩
  · simp only [setk, List.length_append, List.length_cons, List.length_drop, hA, hl]
    omega
  · show (setk key n c).take 13 = key.take 13
    unfold setk
    rw [List.take_append_eq_append_take, hA]
    have h0 : 13 - n = 0 := by omega
    rw [h0, List.take_zero, List.append_nil, List.take_take]
    congr 1
    omega
  · show (setk key n c).drop 21 = key.drop 21
    unfold setk
    rw [List.drop_append_eq_append_drop, hA]
    rw [List.drop_eq_nil_of_le (by omega : (List.take n key).length ≤ 21)]
    have h21 : 21 - n = (20 - n) + 1 := by omega
    rw [List.nil_append, h21, List.drop_succ_cons, List.drop_drop]
    congr 1
    omega

theorem pres_comp {f g : List Char → List Char} (hf : pres f) (hg : pres g) :
    pres (fun k => g (f k)) := by
  intro key hl
  obtain ⟨l1, t1, d1⟩ := hf key hl
  obtain ⟨l2, t2, d2⟩ := hg (f key) l1
  exact ⟨l2, t2.trans t1, d2.trans d1⟩

theorem pres_fan_only :
    pres (fun k => k.take 17 ++ ('E' :: '4' :: '1' :: 'B' :: []) ++ k.drop 21) := by
  intro key hl
  have hA : (List.take 17 key).length = 17 := by
    rw [List.length_take]
    omega
  have hAB : (List.take 17 key ++ ('E' :: '4' :: '1' :: 'B' :: [])).length = 21 := by
    simp [hA]
  refine ⟨?_, ?_, ?_⟩
  · show ((key.take 17 ++ ('E' :: '4' :: '1' :: 'B' :: [])) ++ key.drop 21).length = 23
    simp only [List.length_append, hA, List.length_cons, List.length_nil,
      List.length_drop, hl]
  · show ((key.take 17 ++ ('E' :: '4' :: '1' :: 'B' :: [])) ++ key.drop 21).take 13 =
      key.take 13
    rw [List.take_append_eq_append_take, hAB]
    have h0 : (13 : Nat) - 21 = 0 := by omega
    rw [h0, List.take_zero, List.append_nil]
    rw [List.take_append_eq_append_take, hA]
    have h0b : (13 : Nat) - 17 = 0 := by omega
    rw [h0b, List.take_zero, List.append_nil, List.take_take]
    have hmin : min 13 17 = 13 := by omega
    rw [hmin]
  · show ((key.take 17 ++ ('E' :: '4' :: '1' :: 'B' :: [])) ++ key.drop 21).drop 21 =
      key.drop 21
    rw [List.drop_append_eq_append_drop, hAB]
    have h0 : (21 : Nat) - 21 = 0 := by omega
    rw [h0, List.drop_zero]
    rw [List.drop_eq_nil_of_le (le_of_eq hAB), List.nil_append]

theorem encode_temperature_cases (t : Int) :
    encode_temperature t = (fun key => key) ∨
    ∃ c1 c2 : Char, encode_temperature t = fun key => setk (setk key 17 c1) 19 c2 := by
  by_cases h1 : t = 17
  · refine Or.inr ⟨'0', 'F', ?_⟩
    funext key
    simp [encode_temperature, h1]
  by_cases h2 : t = 18
  · refine Or.inr ⟨'1', 'E', ?_⟩
    funext key
    simp [encode_temperature, h1, h2]
  by_cases h3 : t = 19
  · refine Or.inr ⟨'3', 'C', ?_⟩
    funext key
    simp [encode_temperature, h1, h2, h3]
  by_cases h4 : t = 20
  · refine Or.inr ⟨'2', 'D', ?_⟩
    funext key
    simp [encode_temperature, h1, h2, h3, h4]
  by_cases h5 : t = 21
  · refine Or.inr ⟨'6', '9', ?_⟩
    funext key
    simp [encode_temperature, h1, h2, h3, h4, h5]
  by_cases h6 : t = 22
  · refine Or.inr ⟨'7', '8', ?_⟩
    funext key
    simp [encode_temperature, h1, h2, h3, h4, h5, h6]
  by_cases h7 : t = 23
  · refine Or.inr ⟨'5', 'A', ?_⟩
    funext key
    simp [encode_temperature, h1, h2, h3, h4, h5, h6, h7]
  by_cases h8 : t = 24
  · refine Or.inr ⟨'4', 'B', ?_⟩
    funext key
    simp [encode_temperature, h1, h2, h3, h4, h5, h6, h7, h8]
  by_cases h9 : t = 25
  · refine Or.inr ⟨'C', '3', ?_⟩
    funext key
    simp [encode_temperature, h1, h2, h3, h4, h5, h6, h7, h8, h9]
  by_cases h10 : t = 26
  · refine Or.inr ⟨'D', '2', ?_⟩
    funext key
    simp [encode_temperature, h1, h2, h3, h4, h5, h6, h7, h8, h9, h10]
  by_cases h11 : t = 27
  · refine Or.inr ⟨'9', '6', ?_⟩
    funext key
    simp [encode_temperature, h1, h2, h3, h4, h5, h6, h7, h8, h9, h10, h11]
  by_cases h12 : t = 28
  · refine Or.inr ⟨'8', '7', ?_⟩
    funext key
    simp [encode_temperature, h1, h2, h3, h4, h5, h6, h7, h8, h9, h10, h11, h12]
  by_cases h13 : t = 29
  · refine Or.inr ⟨'A', '5', ?_⟩
    funext key
    simp [encode_temperature, h1, h2, h3, h4, h5, h6, h7, h8, h9, h10, h11, h12, h13]
  by_cases h14 : t = 30
  · refine Or.inr ⟨'B', '4', ?_⟩
    funext key
    simp [encode_temperature, h1, h2, h3, h4, h5, h6, h7, h8, h9, h10, h11, h12, h13, h14]
  · refine Or.inl ?_
    funext key
    simp [encode_temperature, h1, h2, h3, h4, h5, h6, h7, h8, h9, h10, h11, h12, h13, h14]

theorem pres_encode_temperature (t : Int) : pres (encode_temperature t) := by
  rcases encode_temperature_cases t with h | ⟨c1, c2, h⟩
  · rw [h]
    intro key hl
    exact ⟨hl, rfl, rfl⟩
  · rw [h]
    exact pres_comp (pres_setk 17 c1 (by omega) (by omega))
      (pres_setk 19 c2 (by omega) (by omega))

theorem encode_fan_speed_cases (fan : String) :
    encode_fan_speed fan = (fun key => key) ∨
    ∃ c1 c2 : Char, encode_fan_speed fan = fun key => setk (setk key 13 c1) 15 c2 := by
  by_cases h1 : fan = FAN_AUTO
  · refine Or.inr ⟨'B', '4', ?_⟩
    funext key
    simp [encode_fan_speed, FAN_AUTO, FAN_LOW, FAN_MEDIUM, FAN_HIGH, h1]
  by_cases h2 : fan = FAN_LOW
  · refine Or.inr ⟨'9', '6', ?_⟩
    funext key
    simp [encode_fan_speed, FAN_AUTO, FAN_LOW, FAN_MEDIUM, FAN_HIGH, h1, h2]
  by_cases h3 : fan = FAN_MEDIUM
  · refine Or.inr ⟨'5', 'A', ?_⟩
    funext key
    simp [encode_fan_speed, FAN_AUTO, FAN_LOW, FAN_MEDIUM, FAN_HIGH, h1, h2, h3]
  by_cases h4 : fan = FAN_HIGH
  · refine Or.inr ⟨'3', 'C', ?_⟩
    funext key
    simp [encode_fan_speed, FAN_AUTO, FAN_LOW, FAN_MEDIUM, FAN_HIGH, h1, h2, h3, h4]
  · refine Or.inl ?_
    funext key
    simp [encode_fan_speed, h1, h2, h3, h4]

theorem pres_encode_fan_speed (fan : String) : pres (encode_fan_speed fan) := by
  rcases encode_fan_speed_cases fan with h | ⟨c1, c2, h⟩
  · rw [h]
    intro key hl
    exact ⟨hl, rfl, rfl⟩
  · rw [h]
    exact pres_comp (pres_setk 13 c1 (by omega) (by omega))
      (pres_setk 15 c2 (by omega) (by omega))

theorem encode_hvac_mode_cases (hv : String) :
    encode_hvac_mode hv = (fun key => key) ∨
    (∃ c1 c2 : Char, encode_hvac_mode hv = fun key => setk (setk key 18 c1) 20 c2) ∨
    encode_hvac_mode hv =
      (fun key => setk (setk (setk (setk key 13 '1') 15 'E') 18 '4') 20 'B') ∨
    encode_hvac_mode hv =
      (fun key => key.take 17 ++ ('E' :: '4' :: '1' :: 'B' :: []) ++ key.drop 21) := by
  by_cases h1 : hv = HVAC_MODE_AUTO
  · refine Or.inr (Or.inl ⟨'8', '7', ?_⟩)
    funext key
    simp [encode_hvac_mode, HVAC_MODE_AUTO, HVAC_MODE_COOL, HVAC_MODE_HEAT,
      HVAC_MODE_DRY, HVAC_MODE_FAN_ONLY, h1]
  by_cases h2 : hv = HVAC_MODE_COOL
  · refine Or.inr (Or.inl ⟨'0', 'F', ?_⟩)
    funext key
    simp [encode_hvac_mode, HVAC_MODE_AUTO, HVAC_MODE_COOL, HVAC_MODE_HEAT,
      HVAC_MODE_DRY, HVAC_MODE_FAN_ONLY, h1, h2]
  by_cases h3 : hv = HVAC_MODE_HEAT
  · refine Or.inr (Or.inl ⟨'C', '3', ?_⟩)
    funext key
    simp [encode_hvac_mode, HVAC_MODE_AUTO, HVAC_MODE_COOL, HVAC_MODE_HEAT,
      HVAC_MODE_DRY, HVAC_MODE_FAN_ONLY, h1, h2, h3]
  by_cases h4 : hv = HVAC_MODE_DRY
  · refine Or.inr (Or.inr (Or.inl ?_))
    funext key
    simp [encode_hvac_mode, HVAC_MODE_AUTO, HVAC_MODE_COOL, HVAC_MODE_HEAT,
      HVAC_MODE_DRY, HVAC_MODE_FAN_ONLY, h1, h2, h3, h4]
  by_cases h5 : hv = HVAC_MODE_FAN_ONLY
  · refine Or.inr (Or.inr (Or.inr ?_))
    funext key
    simp [encode_hvac_mode, HVAC_MODE_AUTO, HVAC_MODE_COOL, HVAC_MODE_HEAT,
      HVAC_MODE_DRY, HVAC_MODE_FAN_ONLY, h1, h2, h3, h4, h5]
  · refine Or.inl ?_
    funext key
    simp [encode_hvac_mode, h1, h2, h3, h4, h5]

theorem pres_encode_hvac_mode (hv : String) : pres (encode_hvac_mode hv) := by
  rcases encode_hvac_mode_cases hv with h | ⟨c1, c2, h⟩ | h | h
  · rw [h]
    intro key hl
    exact ⟨hl, rfl, rfl⟩
  · rw [h]
    exact pres_comp (pres_setk 18 c1 (by omega) (by omega))
      (pres_setk 20 c2 (by omega) (by omega))
  · rw [h]
    exact pres_comp
      (pres_comp
        (pres_comp (pres_setk 13 '1' (by omega) (by omega))
          (pres_setk 15 'E' (by omega) (by omega)))
        (pres_setk 18 '4' (by omega) (by omega)))
      (pres_setk 20 'B' (by omega) (by omega))
  · rw [h]
    exact pres_fan_only

/-- C10: for every hvac mode from `hvac_modes`, fan mode from `fan_modes`
and any target temperature, the encoded command's `key1` has exactly 23
characters, starts with "002$$0030B24D" and ends with "@%"; moreover each of
the three encoders only ever replaces characters at positions 13-20 of a
23-character key and preserves its length. -/
theorem C10_encode_key_frame (hv fan : String) (t : Int)
    (_hhv : hv ∈ hvac_modes) (_hfan : fan ∈ fan_modes) :
    ((encode hv fan t).key1.length = 23 ∧
      (encode hv fan t).key1.take 13 = ("002$$0030B24D").toList ∧
      (encode hv fan t).key1.drop 21 = ('@' :: '%' :: [])) ∧
    pres (encode_temperature t) ∧ pres (encode_fan_speed fan) ∧
    pres (encode_hvac_mode hv) := by
  have hbase : baseKey.length = 23 := by decide
  obtain ⟨l1, t1, d1⟩ := pres_encode_temperature t baseKey hbase
  obtain ⟨l2, t2, d2⟩ := pres_encode_fan_speed fan _ l1
  obtain ⟨l3, t3, d3⟩ := pres_encode_hvac_mode hv _ l2
  have hkey : (encode hv fan t).key1 =
      encode_hvac_mode hv (encode_fan_speed fan (encode_temperature t baseKey)) := rfl
  refine ⟨⟨?_, ?_, ?_⟩, pres_encode_temperature t, pres_encode_fan_speed fan,
    pres_encode_hvac_mode hv⟩
  · rw [hkey]
    exact l3
  · rw [hkey, t3, t2, t1]
    decide
  · rw [hkey, d3, d2, d1]
    decide

/-- Concrete mode combination witnessing C10. -/
theorem C10_encode_key_frame_witness :
    ((encode HVAC_MODE_COOL FAN_LOW 22).key1.length = 23 ∧
      (encode HVAC_MODE_COOL FAN_LOW 22).key1.take 13 = ("002$$0030B24D").toList ∧
      (encode HVAC_MODE_COOL FAN_LOW 22).key1.drop 21 = ('@' :: '%' :: [])) ∧
    pres (encode_temperature 22) ∧ pres (encode_fan_speed FAN_LOW) ∧
    pres (encode_hvac_mode HVAC_MODE_COOL) :=
  C10_encode_key_frame HVAC_MODE_COOL FAN_LOW 22 (by decide) (by decide)

end LocalTuya
